import Mathlib

/-
Verification of the transcription micro-service in `app/app.py`
(t0mer/transcribing-service).

The service exposes one endpoint, `POST /transcribe`.  Its handler
`transcribe_audio_file`:
  1. joins the request filename with `AUDIO_DIR` (`os.path.join`) and
     checks `os.path.isfile`;
  2. extracts the extension with `os.path.splitext(filename)[1].lower()`
     and tests membership in `SUPPORTED_AUDIO_EXT`;
  3. if the extension is not `.wav`, converts the file to a WAV placed at
     `os.path.join(WAV_DIR, splitext(filename)[0] + ".wav")` via pydub;
  4. transcribes the resulting WAV path with the Whisper model.

We embed the handler as a pure function over an environment that carries
the configuration (`AUDIO_DIR`, `WAV_DIR`) and the three external
collaborators (`os.path.isfile`, the pydub decode/export pair, and the
Whisper model), each modelled as an oracle function.  The result records
the HTTP response together with the observable effects: the list of files
written by the conversion step and the path handed to the model, when the
pipeline reaches that step.
-/

namespace TranscribingService

/-- Index of the last occurrence of `c` in `l`, or `none`.  Mirrors
Python `str.rfind` (which returns `-1` for "absent"; we use `Option`). -/
def lastIdxOf (c : Char) : List Char → Option Nat
  | [] => none
  | x :: xs =>
    match lastIdxOf c xs with
    | some i => some (i + 1)
    | none => if x = c then some 0 else none

/-- The split position chosen by CPython `posixpath.splitext`: the index
of the last `'.'`, provided it comes after the last `'/'` and at least one
character strictly between the start of the basename and that dot is not a
dot (leading dots of the basename never start an extension). -/
def splitextIdx (cs : List Char) : Option Nat :=
  match lastIdxOf '.' cs with
  | none => none
  | some d =>
    let start : Nat :=
      match lastIdxOf '/' cs with
      | none => 0
      | some i => i + 1
    if ((List.range d).drop start).any (fun i => !(cs.getD i ' ' == '.')) then
      some d
    else
      none

/-- CPython `posixpath.splitext`: split `p` into `(root, ext)` with
`root ++ ext = p`; `ext` is empty or begins with the last dot. -/
def os_path_splitext (p : String) : String × String :=
  match splitextIdx p.data with
  | none => (p, "")
  | some d => (String.mk (p.data.take d), String.mk (p.data.drop d))

/-- Python `str.startswith`, on the character lists of the strings. -/
def str_startsWith (s pre : String) : Bool :=
  pre.data.isPrefixOf s.data

/-- Python `str.endswith`, on the character lists of the strings. -/
def str_endsWith (s suf : String) : Bool :=
  suf.data.reverse.isPrefixOf s.data.reverse

/-- CPython `posixpath.join` for two components: an absolute second
component discards the first; otherwise a `/` separator is inserted
unless the first component is empty or already ends with `/`. -/
def os_path_join (a b : String) : String :=
  if str_startsWith b "/" then b
  else if a = "" ∨ str_endsWith a "/" then a ++ b
  else a ++ "/" ++ b

/-- Python `str.lower` on the ASCII fragment (file extensions here are
ASCII); `Char.toLower` lowers exactly the ASCII uppercase letters. -/
def str_lower (s : String) : String :=
  String.mk (s.data.map Char.toLower)

/-- `SUPPORTED_AUDIO_EXT` from `app.py` (a Python `set`, embedded as the
list of its elements with membership as the test). -/
def SUPPORTED_AUDIO_EXT : List String :=
  [".mp3", ".wav", ".ogg", ".m4a", ".webm", ".oga"]

/-- The `{"text": ..., "language": ...}` structure extracted from the
Whisper result. -/
structure TransResult where
  text : String
  language : String
  deriving Repr, DecidableEq

/-- HTTP outcome of the handler: either an `HTTPException(status, detail)`
or the 200 JSON body `{"text": text, "language": language}`. -/
inductive Response where
  | httpError (status : Nat) (detail : String)
  | ok (text language : String)
  deriving Repr, DecidableEq

/-- Process configuration plus the external collaborators of the handler,
each an oracle: `isfile` is `os.path.isfile`; `convert src dst` is
`AudioSegment.from_file(src)` followed by `export(dst, format="wav")`,
failing with the exception's message; `transcribe_model` is
`model.transcribe`, returning the two extracted fields or failing with
the exception's message. -/
structure Env where
  audio_dir : String
  wav_dir : String
  isfile : String → Bool
  convert : String → String → Except String Unit
  transcribe_model : String → Except String TransResult

/-- Observable outcome of one request: the response, the files written to
disk by the conversion step, and the path passed to `model.transcribe`
when the pipeline reaches step 4 (`none` if it never does). -/
structure RunResult where
  response : Response
  written : List String
  transcribedPath : Option String
  deriving Repr, DecidableEq

/-- `filepath = os.path.join(AUDIO_DIR, filename)` (line 78 of app.py). -/
def resolved_path (env : Env) (filename : String) : String :=
  os_path_join env.audio_dir filename

/-- `ext = os.path.splitext(filename)[1].lower()` (line 87 of app.py). -/
def file_ext (filename : String) : String :=
  str_lower (os_path_splitext filename).2

/-- `wav_path = os.path.join(WAV_DIR, f"{os.path.splitext(filename)[0]}.wav")`
(lines 96–97 of app.py). -/
def wav_output_path (env : Env) (filename : String) : String :=
  os_path_join env.wav_dir ((os_path_splitext filename).1 ++ ".wav")

/-- Step 4 of the handler: `model.transcribe(wav_path)` wrapped in
`try/except` (lines 110–120 of app.py). -/
def step4_transcribe (env : Env) (wav_path : String) (written : List String) :
    RunResult :=
  match env.transcribe_model wav_path with
  | Except.ok r => ⟨Response.ok r.text r.language, written, some wav_path⟩
  | Except.error e =>
    ⟨Response.httpError 500 ("Transcription failed: " ++ e), written,
      some wav_path⟩

/-- The full handler `transcribe_audio_file` (lines 67–120 of app.py):
existence check, format check, conditional conversion, transcription. -/
def transcribe_audio_file (env : Env) (filename : String) : RunResult :=
  if env.isfile (resolved_path env filename) = false then
    ⟨Response.httpError 404 "File not found", [], none⟩
  else if file_ext filename ∉ SUPPORTED_AUDIO_EXT then
    ⟨Response.httpError 400 ("Unsupported file format: " ++ file_ext filename),
      [], none⟩
  else if file_ext filename ≠ ".wav" then
    match env.convert (resolved_path env filename) (wav_output_path env filename) with
    | Except.error e =>
      ⟨Response.httpError 500 ("Audio conversion failed: " ++ e), [], none⟩
    | Except.ok _ =>
      step4_transcribe env (wav_output_path env filename)
        [wav_output_path env filename]
  else
    step4_transcribe env (resolved_path env filename) []

/-- Split a character list into its `/`-separated segments. -/
def splitSegs : List Char → List (List Char)
  | [] => [[]]
  | c :: cs =>
    match splitSegs cs with
    | [] => [[]]
    | s :: rest => if c = '/' then [] :: s :: rest else (c :: s) :: rest

/-- Lexical normalization of an absolute POSIX path's segments (the
semantics of `posixpath.normpath` on absolute paths with a single leading
slash): empty and `.` segments are dropped, `..` pops the previous
segment. -/
def normSegs (acc : List (List Char)) : List (List Char) → List (List Char)
  | [] => acc
  | s :: rest =>
    if s = [] ∨ s = ['.'] then normSegs acc rest
    else if s = ['.', '.'] then normSegs acc.dropLast rest
    else normSegs (acc ++ [s]) rest

/-- Rejoin segments with `/` separators. -/
def joinSegs : List (List Char) → List Char
  | [] => []
  | [s] => s
  | s :: rest => s ++ '/' :: joinSegs rest

/-- Normalize an absolute POSIX path lexically, as `posixpath.normpath`
does for paths with a single leading slash. -/
def posix_normpath_abs (p : String) : String :=
  String.mk ('/' :: joinSegs (normSegs [] (splitSegs p.data)))

/-- `a` is a list prefix of `b`, on the characters of the strings. -/
def strIsPrefixOf (a b : String) : Bool :=
  a.data.isPrefixOf b.data

/-- A normalized path `p` lies within directory `base`: it is `base`
itself or extends `base ++ "/"`. -/
def isWithinDir (base p : String) : Bool :=
  p == base || strIsPrefixOf (base ++ "/") p

/-- Deployment with the default directories in which every path names an
existing regular file and both collaborators succeed. -/
def envAll : Env :=
  ⟨"/data/audio", "/data/wav", fun _ => true, fun _ _ => Except.ok (),
    fun _ => Except.ok ⟨"hello world", "en"⟩⟩

/-- Deployment in which no path names an existing regular file. -/
def envMissing : Env :=
  ⟨"/data/audio", "/data/wav", fun _ => false, fun _ _ => Except.ok (),
    fun _ => Except.ok ⟨"hello world", "en"⟩⟩

/-- Deployment in which every file exists but pydub/ffmpeg conversion
always raises. -/
def envBadConvert : Env :=
  ⟨"/data/audio", "/data/wav", fun _ => true,
    fun _ _ => Except.error "ffmpeg returned non-zero exit status",
    fun _ => Except.ok ⟨"hello world", "en"⟩⟩

/-- Deployment in which every file exists, conversion succeeds, and the
Whisper model always raises. -/
def envBadModel : Env :=
  ⟨"/data/audio", "/data/wav", fun _ => true, fun _ _ => Except.ok (),
    fun _ => Except.error "CUDA out of memory"⟩

/-- If `c` does not occur in `l`, `lastIdxOf` finds nothing. -/
theorem lastIdxOf_eq_none {c : Char} {l : List Char} (h : c ∉ l) :
    lastIdxOf c l = none := by
  induction l with
  | nil => rfl
  | cons x xs ih =>
    rw [List.mem_cons, not_or] at h
    unfold lastIdxOf
    rw [ih h.2]
    exact if_neg (fun hx => h.1 hx.symm)

/-- A filename with no dot at all has no extension split point. -/
theorem splitextIdx_no_dot {cs : List Char} (h : '.' ∉ cs) :
    splitextIdx cs = none := by
  unfold splitextIdx
  rw [lastIdxOf_eq_none h]

/-- A filename that is a single leading dot followed by dot-free text has
no extension split point (`splitext` treats the dot as a hidden-file
marker, not an extension separator). -/
theorem splitextIdx_leading_dot {cs : List Char} (h : '.' ∉ cs) :
    splitextIdx ('.' :: cs) = none := by
  have hl : lastIdxOf '.' ('.' :: cs) = some 0 := by
    unfold lastIdxOf
    rw [lastIdxOf_eq_none h]
    simp
  unfold splitextIdx
  rw [hl]
  simp

/-- C2: for every request, the existence check runs first: when the
joined path does not name an existing regular file the handler answers
404 with detail "File not found" — no conversion, no transcription —
whatever the filename's extension is. -/
theorem C2_missing_file_yields_404 (env : Env) (filename : String)
    (h : env.isfile (resolved_path env filename) = false) :
    transcribe_audio_file env filename =
      ⟨Response.httpError 404 "File not found", [], none⟩ := by
  unfold transcribe_audio_file
  rw [h]
  rfl

theorem C2_witness :
    envMissing.isfile (resolved_path envMissing "ghost.zzz") = false ∧
    transcribe_audio_file envMissing "ghost.zzz" =
      ⟨Response.httpError 404 "File not found", [], none⟩ :=
  ⟨rfl, C2_missing_file_yields_404 envMissing "ghost.zzz" rfl⟩

/-- C3 counterexample: the claim says an unsupported extension yields the
UnsupportedFormat classification regardless of existence, but for the
missing file "doc.txt" (extension ".txt", outside the supported set) the
handler answers 404 "File not found", not the 400 UnsupportedFormat
response. -/
theorem C3_counterexample :
    file_ext "doc.txt" ∉ SUPPORTED_AUDIO_EXT ∧
    (transcribe_audio_file envMissing "doc.txt").response =
      Response.httpError 404 "File not found" ∧
    (transcribe_audio_file envMissing "doc.txt").response ≠
      Response.httpError 400 ("Unsupported file format: " ++ ".txt") := by
  refine ⟨by decide, rfl, by decide⟩

/-- C3 amended: for every request filename whose extension is outside the
supported set and whose joined path names an existing regular file, the
response is the UnsupportedFormat classification (400 with detail
"Unsupported file format: <ext>"). -/
theorem C3_unsupported_ext_of_existing (env : Env) (filename : String)
    (h1 : env.isfile (resolved_path env filename) = true)
    (h2 : file_ext filename ∉ SUPPORTED_AUDIO_EXT) :
    (transcribe_audio_file env filename).response =
      Response.httpError 400 ("Unsupported file format: " ++ file_ext filename) := by
  unfold transcribe_audio_file
  rw [h1]
  simp only [Bool.true_eq_false, if_false, if_pos h2]

theorem C3_witness :
    envAll.isfile (resolved_path envAll "notes.pdf") = true ∧
    file_ext "notes.pdf" ∉ SUPPORTED_AUDIO_EXT ∧
    (transcribe_audio_file envAll "notes.pdf").response =
      Response.httpError 400 ("Unsupported file format: " ++ file_ext "notes.pdf") :=
  ⟨rfl, by decide, C3_unsupported_ext_of_existing envAll "notes.pdf" rfl (by decide)⟩

/-- C4: for every existing request file, the format decision lowercases
the splitext extension and tests membership in SUPPORTED_AUDIO_EXT; when
the lowercased extension is not in the set the whole outcome is 400 with
detail "Unsupported file format: <ext>", nothing is written, and the
model is never invoked. -/
theorem C4_format_gate (env : Env) (filename : String)
    (h1 : env.isfile (resolved_path env filename) = true)
    (h2 : str_lower (os_path_splitext filename).2 ∉ SUPPORTED_AUDIO_EXT) :
    transcribe_audio_file env filename =
      ⟨Response.httpError 400
        ("Unsupported file format: " ++ str_lower (os_path_splitext filename).2),
        [], none⟩ := by
  unfold transcribe_audio_file file_ext
  rw [h1]
  simp only [Bool.true_eq_false, if_false, if_pos h2]

theorem C4_witness :
    envAll.isfile (resolved_path envAll "clip.MOV") = true ∧
    str_lower (os_path_splitext "clip.MOV").2 ∉ SUPPORTED_AUDIO_EXT ∧
    transcribe_audio_file envAll "clip.MOV" =
      ⟨Response.httpError 400
        ("Unsupported file format: " ++ str_lower (os_path_splitext "clip.MOV").2),
        [], none⟩ :=
  ⟨rfl, by decide, C4_format_gate envAll "clip.MOV" rfl (by decide)⟩

/-- C5: for every existing request file whose lowercased extension is
".wav", the normalization step does nothing: no file is written and the
path handed to the model is exactly the resolved input path. -/
theorem C5_wav_bypasses_conversion (env : Env) (filename : String)
    (h1 : env.isfile (resolved_path env filename) = true)
    (h2 : file_ext filename = ".wav") :
    (transcribe_audio_file env filename).written = [] ∧
    (transcribe_audio_file env filename).transcribedPath =
      some (resolved_path env filename) := by
  unfold transcribe_audio_file
  rw [h1, h2]
  simp only [Bool.true_eq_false, if_false]
  rw [if_neg (by decide), if_neg (by simp)]
  unfold step4_transcribe
  cases env.transcribe_model (resolved_path env filename) <;> exact ⟨rfl, rfl⟩

theorem C5_witness :
    envAll.isfile (resolved_path envAll "Voice.WAV") = true ∧
    file_ext "Voice.WAV" = ".wav" ∧
    ((transcribe_audio_file envAll "Voice.WAV").written = [] ∧
      (transcribe_audio_file envAll "Voice.WAV").transcribedPath =
        some (resolved_path envAll "Voice.WAV")) :=
  ⟨rfl, by decide, C5_wav_bypasses_conversion envAll "Voice.WAV" rfl (by decide)⟩

/-- C6: for every existing request file with a supported non-wav
extension whose conversion succeeds, exactly one file is written: the one
under WAV_DIR named by replacing the filename's extension with ".wav",
and exactly that path is handed to the model. -/
theorem C6_conversion_writes_wav (env : Env) (filename : String)
    (h1 : env.isfile (resolved_path env filename) = true)
    (h2 : file_ext filename ∈ SUPPORTED_AUDIO_EXT)
    (h3 : file_ext filename ≠ ".wav")
    (h4 : env.convert (resolved_path env filename) (wav_output_path env filename) =
      Except.ok ()) :
    (transcribe_audio_file env filename).written =
      [os_path_join env.wav_dir ((os_path_splitext filename).1 ++ ".wav")] ∧
    (transcribe_audio_file env filename).transcribedPath =
      some (os_path_join env.wav_dir ((os_path_splitext filename).1 ++ ".wav")) := by
  unfold transcribe_audio_file
  rw [h1]
  simp only [Bool.true_eq_false, if_false]
  rw [if_neg (not_not_intro h2), if_pos h3, h4]
  unfold step4_transcribe wav_output_path
  cases env.transcribe_model
      (os_path_join env.wav_dir ((os_path_splitext filename).1 ++ ".wav")) <;>
    exact ⟨rfl, rfl⟩

theorem C6_witness :
    envAll.isfile (resolved_path envAll "song.mp3") = true ∧
    file_ext "song.mp3" ∈ SUPPORTED_AUDIO_EXT ∧
    file_ext "song.mp3" ≠ ".wav" ∧
    envAll.convert (resolved_path envAll "song.mp3")
      (wav_output_path envAll "song.mp3") = Except.ok () ∧
    ((transcribe_audio_file envAll "song.mp3").written =
      [os_path_join envAll.wav_dir ((os_path_splitext "song.mp3").1 ++ ".wav")] ∧
    (transcribe_audio_file envAll "song.mp3").transcribedPath =
      some (os_path_join envAll.wav_dir ((os_path_splitext "song.mp3").1 ++ ".wav"))) :=
  ⟨rfl, by decide, by decide, rfl,
    C6_conversion_writes_wav envAll "song.mp3" rfl (by decide) (by decide) rfl⟩

/-- C7: for every existing, supported, non-wav request whose conversion
fails with diagnostic `msg`, the handler answers 500 with detail
"Audio conversion failed: <msg>", writes nothing, and never invokes the
model. -/
theorem C7_conversion_failure_stops (env : Env) (filename : String) (msg : String)
    (h1 : env.isfile (resolved_path env filename) = true)
    (h2 : file_ext filename ∈ SUPPORTED_AUDIO_EXT)
    (h3 : file_ext filename ≠ ".wav")
    (h4 : env.convert (resolved_path env filename) (wav_output_path env filename) =
      Except.error msg) :
    transcribe_audio_file env filename =
      ⟨Response.httpError 500 ("Audio conversion failed: " ++ msg), [], none⟩ := by
  unfold transcribe_audio_file
  rw [h1]
  simp only [Bool.true_eq_false, if_false]
  rw [if_neg (not_not_intro h2), if_pos h3, h4]

theorem C7_witness :
    envBadConvert.isfile (resolved_path envBadConvert "talk.ogg") = true ∧
    file_ext "talk.ogg" ∈ SUPPORTED_AUDIO_EXT ∧
    file_ext "talk.ogg" ≠ ".wav" ∧
    envBadConvert.convert (resolved_path envBadConvert "talk.ogg")
      (wav_output_path envBadConvert "talk.ogg") =
      Except.error "ffmpeg returned non-zero exit status" ∧
    transcribe_audio_file envBadConvert "talk.ogg" =
      ⟨Response.httpError 500
        ("Audio conversion failed: " ++ "ffmpeg returned non-zero exit status"),
        [], none⟩ :=
  ⟨rfl, by decide, by decide, rfl,
    C7_conversion_failure_stops envBadConvert "talk.ogg"
      "ffmpeg returned non-zero exit status" rfl (by decide) (by decide) rfl⟩

/-- C8: every request that reaches the transcription step hands the model
the wav path (the resolved input for ".wav", the converted output
otherwise); a model failure yields 500 with detail
"Transcription failed: <msg>" and a model success yields the 200 body
with exactly the text and language fields of the result. -/
theorem C8_transcription_step (env : Env) (filename : String)
    (h1 : env.isfile (resolved_path env filename) = true)
    (h2 : file_ext filename ∈ SUPPORTED_AUDIO_EXT)
    (h3 : file_ext filename = ".wav" ∨
      env.convert (resolved_path env filename) (wav_output_path env filename) =
        Except.ok ()) :
    (transcribe_audio_file env filename).transcribedPath =
      some (if file_ext filename = ".wav" then resolved_path env filename
        else wav_output_path env filename) ∧
    (transcribe_audio_file env filename).response =
      (match env.transcribe_model
          (if file_ext filename = ".wav" then resolved_path env filename
            else wav_output_path env filename) with
        | Except.ok r => Response.ok r.text r.language
        | Except.error e =>
          Response.httpError 500 ("Transcription failed: " ++ e)) := by
  unfold transcribe_audio_file
  rw [h1]
  simp only [Bool.true_eq_false, if_false]
  rw [if_neg (not_not_intro h2)]
  by_cases hw : file_ext filename = ".wav"
  · rw [if_neg (not_not_intro hw), if_pos hw]
    unfold step4_transcribe
    cases env.transcribe_model (resolved_path env filename) <;> exact ⟨rfl, rfl⟩
  · have h4 := h3.resolve_left hw
    rw [if_pos hw, if_neg hw, h4]
    unfold step4_transcribe
    cases env.transcribe_model (wav_output_path env filename) <;> exact ⟨rfl, rfl⟩

theorem C8_witness :
    envBadModel.isfile (resolved_path envBadModel "talk.m4a") = true ∧
    file_ext "talk.m4a" ∈ SUPPORTED_AUDIO_EXT ∧
    (file_ext "talk.m4a" = ".wav" ∨
      envBadModel.convert (resolved_path envBadModel "talk.m4a")
        (wav_output_path envBadModel "talk.m4a") = Except.ok ()) ∧
    ((transcribe_audio_file envBadModel "talk.m4a").transcribedPath =
      some (if file_ext "talk.m4a" = ".wav" then resolved_path envBadModel "talk.m4a"
        else wav_output_path envBadModel "talk.m4a") ∧
    (transcribe_audio_file envBadModel "talk.m4a").response =
      (match envBadModel.transcribe_model
          (if file_ext "talk.m4a" = ".wav" then resolved_path envBadModel "talk.m4a"
            else wav_output_path envBadModel "talk.m4a") with
        | Except.ok r => Response.ok r.text r.language
        | Except.error e =>
          Response.httpError 500 ("Transcription failed: " ++ e))) :=
  ⟨rfl, by decide, Or.inr rfl,
    C8_transcription_step envBadModel "talk.m4a" rfl (by decide) (Or.inr rfl)⟩

/-- C9: a request filename that is an absolute path makes `os.path.join`
discard AUDIO_DIR entirely, so the resolved path is the filename itself;
whenever that file exists anywhere on the filesystem it passes the
existence check and the handler proceeds past the 404 branch. -/
theorem C9_absolute_filename_discards_base (env : Env) (filename : String)
    (h1 : str_startsWith filename "/" = true)
    (h2 : env.isfile filename = true) :
    resolved_path env filename = filename ∧
    (transcribe_audio_file env filename).response ≠
      Response.httpError 404 "File not found" := by
  have hres : resolved_path env filename = filename := by
    unfold resolved_path os_path_join
    rw [if_pos h1]
  refine ⟨hres, ?_⟩
  unfold transcribe_audio_file
  rw [hres, h2]
  simp only [Bool.true_eq_false, if_false]
  by_cases hs : file_ext filename ∉ SUPPORTED_AUDIO_EXT
  · rw [if_pos hs]
    simp
  · rw [if_neg hs]
    by_cases hw : file_ext filename ≠ ".wav"
    · rw [if_pos hw]
      cases env.convert filename (wav_output_path env filename) with
      | error e => simp
      | ok u =>
        unfold step4_transcribe
        cases env.transcribe_model (wav_output_path env filename) <;> simp
    · rw [if_neg hw]
      unfold step4_transcribe
      cases env.transcribe_model filename <;> simp

theorem C9_witness :
    str_startsWith "/etc/shadow.mp3" "/" = true ∧
    envAll.isfile "/etc/shadow.mp3" = true ∧
    (resolved_path envAll "/etc/shadow.mp3" = "/etc/shadow.mp3" ∧
    (transcribe_audio_file envAll "/etc/shadow.mp3").response ≠
      Response.httpError 404 "File not found") :=
  ⟨rfl, rfl, C9_absolute_filename_discards_base envAll "/etc/shadow.mp3" rfl rfl⟩

/-- C10: a filename with no dot, or with only a single leading dot (a
hidden file such as ".wav"), has the empty extension under
`os.path.splitext`; since "" is not in the supported set, an existing
file of that shape is answered with 400 and detail
"Unsupported file format: " followed by nothing. -/
theorem C10_no_extension_rejected (env : Env) (filename : String)
    (h : ('.' ∉ filename.data) ∨
      (∃ cs, filename.data = '.' :: cs ∧ '.' ∉ cs))
    (h2 : env.isfile (resolved_path env filename) = true) :
    file_ext filename = "" ∧
    (transcribe_audio_file env filename).response =
      Response.httpError 400 ("Unsupported file format: " ++ "") := by
  have hidx : splitextIdx filename.data = none := by
    rcases h with hnd | ⟨cs, hcs, hnd⟩
    · exact splitextIdx_no_dot hnd
    · rw [hcs]
      exact splitextIdx_leading_dot hnd
  have hext : file_ext filename = "" := by
    unfold file_ext os_path_splitext
    rw [hidx]
    rfl
  refine ⟨hext, ?_⟩
  unfold transcribe_audio_file
  rw [h2, hext]
  simp only [Bool.true_eq_false, if_false]
  rw [if_pos (by decide)]

theorem C10_witness :
    (('.' ∉ (".wav" : String).data) ∨
      (∃ cs, (".wav" : String).data = '.' :: cs ∧ '.' ∉ cs)) ∧
    envAll.isfile (resolved_path envAll ".wav") = true ∧
    (file_ext ".wav" = "" ∧
    (transcribe_audio_file envAll ".wav").response =
      Response.httpError 400 ("Unsupported file format: " ++ "")) :=
  ⟨Or.inr ⟨['w', 'a', 'v'], rfl, by decide⟩, rfl,
    C10_no_extension_rejected envAll ".wav"
      (Or.inr ⟨['w', 'a', 'v'], rfl, by decide⟩) rfl⟩

/-- C1: the handler does not guard against path traversal: for the
request filename "../secret.wav" under the default AUDIO_DIR
"/data/audio", the joined path normalizes to "/data/secret.wav", which
lies outside the base directory, yet the handler passes that joined path
to the model and returns its transcription — a file outside the base
directory is read and transcribed, contradicting the claimed contract. -/
theorem C1_traversal_escapes_base :
    (transcribe_audio_file envAll "../secret.wav").transcribedPath =
      some "/data/audio/../secret.wav" ∧
    posix_normpath_abs "/data/audio/../secret.wav" = "/data/secret.wav" ∧
    isWithinDir "/data/audio" (posix_normpath_abs "/data/audio/../secret.wav") =
      false ∧
    (transcribe_audio_file envAll "../secret.wav").response =
      Response.ok "hello world" "en" := by
  refine ⟨by decide, by decide, by decide, by decide⟩

end TranscribingService
